import Mathlib

/-!
Verification development for the `oneshot-starter-new` repository: a shallow
embedding of the auth wrapper functions in `src/lib/supabase/auth.ts`, the home
page component in `src/app/page.tsx`, and the PocketBase docker bootstrap
script, together with theorems settling the specification's claims about them.
-/

namespace OneshotStarter

/-! ## Supabase auth SDK surface, as used by `src/lib/supabase/auth.ts` -/

/-- The provider union type of `signInWithOAuth` in `auth.ts`:
`"google" | "github" | "discord"`. -/
inductive Provider
  | google
  | github
  | discord
  deriving DecidableEq, Repr

/-- Argument object of `supabase.auth.signInWithPassword({ email, password })`. -/
structure SignInParams where
  email : String
  password : String
  deriving DecidableEq, Repr

/-- Argument object of `supabase.auth.signUp({ email, password })`. -/
structure SignUpParams where
  email : String
  password : String
  deriving DecidableEq, Repr

/-- Argument object of `supabase.auth.signInWithOAuth({ provider, options })`:
the provider together with the `options.redirectTo` URL. -/
structure OAuthParams where
  provider : Provider
  redirectTo : String
  deriving DecidableEq, Repr

/-- Arguments of `supabase.auth.resetPasswordForEmail(email, { redirectTo })`. -/
structure ResetParams where
  email : String
  redirectTo : String
  deriving DecidableEq, Repr

/-- Argument object of `supabase.auth.updateUser({ password })`. -/
structure UpdateUserParams where
  password : String
  deriving DecidableEq, Repr

/-- One outbound call to a `supabase.auth` SDK method, with the arguments the
SDK method receives.  These six methods are exactly the ones `auth.ts` uses. -/
inductive SdkCall
  | signInWithPassword (p : SignInParams)
  | signUp (p : SignUpParams)
  | signOut
  | signInWithOAuth (p : OAuthParams)
  | resetPasswordForEmail (p : ResetParams)
  | updateUser (p : UpdateUserParams)
  deriving DecidableEq, Repr

/-- A supabase-style SDK response object `{ data, error }`.  `Data` and `Err`
are abstract: the wrappers never inspect either field. -/
structure DataErr (Data Err : Type) where
  data : Data
  error : Option Err
  deriving DecidableEq, Repr

/-- A response object carrying only an `error` field, the shape `signOut`
returns in `auth.ts` (`return { error }`). -/
structure ErrOnly (Err : Type) where
  error : Option Err
  deriving DecidableEq, Repr

/-- The behaviour of the external SDK client handle: for each call it either
returns a `{ data, error }` response object or raises an exception `Exn`. -/
structure Sdk (Data Err Exn : Type) where
  respond : SdkCall → Except Exn (DataErr Data Err)

/-- `window.location` of the ambient browser environment. -/
structure Location where
  origin : String
  deriving DecidableEq, Repr

/-- The ambient browser `window` global that `signInWithOAuth` and
`resetPassword` read `location.origin` from. -/
structure Window where
  location : Location
  deriving DecidableEq, Repr

/-! ## Effect model

The wrappers are embedded in a small effect monad recording
  * the process-wide client handle (the state behind `createClient`), and
  * the trace of outbound SDK calls made,
with SDK exceptions propagating as in `async` TypeScript code without
`try`/`catch`. -/

/-- Repository-visible state during an auth call: the process-wide client
handle (if already initialized) and the trace of outbound SDK calls. -/
structure AuthState (Data Err Exn : Type) where
  client : Option (Sdk Data Err Exn)
  trace : List SdkCall

section EffectModel

variable {Data Err Exn : Type}

/-- The effect monad of the embedding: state passing over `AuthState` with
exception propagation. -/
def AuthM (Data Err Exn : Type) (α : Type) : Type :=
  AuthState Data Err Exn → Except Exn α × AuthState Data Err Exn

instance : Monad (AuthM Data Err Exn) where
  pure a := fun st => (Except.ok a, st)
  bind x f := fun st =>
    match x st with
    | (Except.ok a, st1) => f a st1
    | (Except.error e, st1) => (Except.error e, st1)

/-- Run a computation of the effect monad on a starting state. -/
def AuthM.run (x : AuthM Data Err Exn α) (st : AuthState Data Err Exn) :
    Except Exn α × AuthState Data Err Exn :=
  x st

/-- One `await supabase.auth.<method>(...)` invocation on the handle `sdk`:
the call is recorded on the outbound trace and the SDK's response object (or
raised error) is passed back. -/
def callAuth (sdk : Sdk Data Err Exn) (c : SdkCall) :
    AuthM Data Err Exn (DataErr Data Err) :=
  fun st => (sdk.respond c, { st with trace := st.trace ++ [c] })

/-- Modelled from the spec: the file `src/lib/supabase/client.ts` (the browser
client module `auth.ts` imports `createClient` from) is not present under
`src/`; only its callers and the project overview describing it are.  Per the
spec, "keep the backend client as a single process-wide handle with an explicit
initialization step": `createClient` yields the process-wide handle, installing
`fresh` — the client the SDK constructor builds from the environment variables
— the first time it is called, and returning the already-installed handle on
every later call. -/
def createClient (fresh : Sdk Data Err Exn) : AuthM Data Err Exn (Sdk Data Err Exn) :=
  fun st =>
    match st.client with
    | some c => (Except.ok c, st)
    | none => (Except.ok fresh, { st with client := some fresh })

/-! ## The six auth wrappers of `src/lib/supabase/auth.ts` -/

/-- `signInWithEmail(email, password)` from `auth.ts`. -/
def signInWithEmail (fresh : Sdk Data Err Exn) (email password : String) :
    AuthM Data Err Exn (DataErr Data Err) := do
  let supabase ← createClient fresh
  let r ← callAuth supabase (.signInWithPassword { email := email, password := password })
  pure { data := r.data, error := r.error }

/-- `signUpWithEmail(email, password)` from `auth.ts`. -/
def signUpWithEmail (fresh : Sdk Data Err Exn) (email password : String) :
    AuthM Data Err Exn (DataErr Data Err) := do
  let supabase ← createClient fresh
  let r ← callAuth supabase (.signUp { email := email, password := password })
  pure { data := r.data, error := r.error }

/-- `signOut()` from `auth.ts`: only the `error` field of the SDK response is
kept (`const { error } = await supabase.auth.signOut(); return { error }`). -/
def signOut (fresh : Sdk Data Err Exn) : AuthM Data Err Exn (ErrOnly Err) := do
  let supabase ← createClient fresh
  let r ← callAuth supabase .signOut
  pure { error := r.error }

/-- `signInWithOAuth(provider)` from `auth.ts`: the SDK receives, besides the
caller's provider, `options.redirectTo` built from `window.location.origin`. -/
def signInWithOAuth (fresh : Sdk Data Err Exn) (window : Window) (provider : Provider) :
    AuthM Data Err Exn (DataErr Data Err) := do
  let supabase ← createClient fresh
  let r ← callAuth supabase
    (.signInWithOAuth { provider := provider,
                        redirectTo := window.location.origin ++ "/auth/callback" })
  pure { data := r.data, error := r.error }

/-- `resetPassword(email)` from `auth.ts`: the SDK receives, besides the
caller's email, a `redirectTo` built from `window.location.origin`. -/
def resetPassword (fresh : Sdk Data Err Exn) (window : Window) (email : String) :
    AuthM Data Err Exn (DataErr Data Err) := do
  let supabase ← createClient fresh
  let r ← callAuth supabase
    (.resetPasswordForEmail { email := email,
                              redirectTo := window.location.origin ++ "/auth/reset-password" })
  pure { data := r.data, error := r.error }

/-- `updatePassword(password)` from `auth.ts`. -/
def updatePassword (fresh : Sdk Data Err Exn) (password : String) :
    AuthM Data Err Exn (DataErr Data Err) := do
  let supabase ← createClient fresh
  let r ← callAuth supabase (.updateUser { password := password })
  pure { data := r.data, error := r.error }

end EffectModel

section RunLemmas

variable {Data Err Exn : Type}

/-- Closed form of running `signInWithEmail`. -/
theorem signInWithEmail_run (fresh : Sdk Data Err Exn) (email password : String)
    (st : AuthState Data Err Exn) :
    (signInWithEmail fresh email password).run st =
      (let h := st.client.getD fresh
       let c : SdkCall := .signInWithPassword { email := email, password := password }
       match h.respond c with
       | .ok r => (Except.ok { data := r.data, error := r.error },
                   { client := some h, trace := st.trace ++ [c] })
       | .error e => (Except.error e, { client := some h, trace := st.trace ++ [c] })) := by
  obtain ⟨cl, tr⟩ := st
  cases cl with
  | none =>
    cases hr : fresh.respond (.signInWithPassword { email := email, password := password }) <;>
      simp [signInWithEmail, AuthM.run, createClient, callAuth, Bind.bind, Monad.toBind,
        Pure.pure, hr]
  | some c0 =>
    cases hr : c0.respond (.signInWithPassword { email := email, password := password }) <;>
      simp [signInWithEmail, AuthM.run, createClient, callAuth, Bind.bind, Monad.toBind,
        Pure.pure, hr]

/-- Closed form of running `signUpWithEmail`. -/
theorem signUpWithEmail_run (fresh : Sdk Data Err Exn) (email password : String)
    (st : AuthState Data Err Exn) :
    (signUpWithEmail fresh email password).run st =
      (let h := st.client.getD fresh
       let c : SdkCall := .signUp { email := email, password := password }
       match h.respond c with
       | .ok r => (Except.ok { data := r.data, error := r.error },
                   { client := some h, trace := st.trace ++ [c] })
       | .error e => (Except.error e, { client := some h, trace := st.trace ++ [c] })) := by
  obtain ⟨cl, tr⟩ := st
  cases cl with
  | none =>
    cases hr : fresh.respond (.signUp { email := email, password := password }) <;>
      simp [signUpWithEmail, AuthM.run, createClient, callAuth, Bind.bind, Monad.toBind,
        Pure.pure, hr]
  | some c0 =>
    cases hr : c0.respond (.signUp { email := email, password := password }) <;>
      simp [signUpWithEmail, AuthM.run, createClient, callAuth, Bind.bind, Monad.toBind,
        Pure.pure, hr]

/-- Closed form of running `signOut`. -/
theorem signOut_run (fresh : Sdk Data Err Exn) (st : AuthState Data Err Exn) :
    (signOut fresh).run st =
      (let h := st.client.getD fresh
       match h.respond .signOut with
       | .ok r => (Except.ok { error := r.error },
                   { client := some h, trace := st.trace ++ [.signOut] })
       | .error e => (Except.error e, { client := some h, trace := st.trace ++ [.signOut] })) := by
  obtain ⟨cl, tr⟩ := st
  cases cl with
  | none =>
    cases hr : fresh.respond .signOut <;>
      simp [signOut, AuthM.run, createClient, callAuth, Bind.bind, Monad.toBind,
        Pure.pure, hr]
  | some c0 =>
    cases hr : c0.respond .signOut <;>
      simp [signOut, AuthM.run, createClient, callAuth, Bind.bind, Monad.toBind,
        Pure.pure, hr]

/-- Closed form of running `signInWithOAuth`. -/
theorem signInWithOAuth_run (fresh : Sdk Data Err Exn) (window : Window)
    (provider : Provider) (st : AuthState Data Err Exn) :
    (signInWithOAuth fresh window provider).run st =
      (let h := st.client.getD fresh
       let u := window.location.origin ++ "/auth/callback"
       let c : SdkCall := .signInWithOAuth { provider := provider, redirectTo := u }
       match h.respond c with
       | .ok r => (Except.ok { data := r.data, error := r.error },
                   { client := some h, trace := st.trace ++ [c] })
       | .error e => (Except.error e, { client := some h, trace := st.trace ++ [c] })) := by
  obtain ⟨cl, tr⟩ := st
  cases cl with
  | none =>
    cases hr : fresh.respond (.signInWithOAuth ⟨provider, window.location.origin ++ "/auth/callback"⟩) <;>
      simp [signInWithOAuth, AuthM.run, createClient, callAuth, Bind.bind, Monad.toBind,
        Pure.pure, hr]
  | some c0 =>
    cases hr : c0.respond (.signInWithOAuth ⟨provider, window.location.origin ++ "/auth/callback"⟩) <;>
      simp [signInWithOAuth, AuthM.run, createClient, callAuth, Bind.bind, Monad.toBind,
        Pure.pure, hr]

/-- Closed form of running `resetPassword`. -/
theorem resetPassword_run (fresh : Sdk Data Err Exn) (window : Window)
    (email : String) (st : AuthState Data Err Exn) :
    (resetPassword fresh window email).run st =
      (let h := st.client.getD fresh
       let u := window.location.origin ++ "/auth/reset-password"
       let c : SdkCall := .resetPasswordForEmail { email := email, redirectTo := u }
       match h.respond c with
       | .ok r => (Except.ok { data := r.data, error := r.error },
                   { client := some h, trace := st.trace ++ [c] })
       | .error e => (Except.error e, { client := some h, trace := st.trace ++ [c] })) := by
  obtain ⟨cl, tr⟩ := st
  cases cl with
  | none =>
    cases hr : fresh.respond (.resetPasswordForEmail ⟨email, window.location.origin ++ "/auth/reset-password"⟩) <;>
      simp [resetPassword, AuthM.run, createClient, callAuth, Bind.bind, Monad.toBind,
        Pure.pure, hr]
  | some c0 =>
    cases hr : c0.respond (.resetPasswordForEmail ⟨email, window.location.origin ++ "/auth/reset-password"⟩) <;>
      simp [resetPassword, AuthM.run, createClient, callAuth, Bind.bind, Monad.toBind,
        Pure.pure, hr]

/-- Closed form of running `updatePassword`. -/
theorem updatePassword_run (fresh : Sdk Data Err Exn) (password : String)
    (st : AuthState Data Err Exn) :
    (updatePassword fresh password).run st =
      (let h := st.client.getD fresh
       let c : SdkCall := .updateUser { password := password }
       match h.respond c with
       | .ok r => (Except.ok { data := r.data, error := r.error },
                   { client := some h, trace := st.trace ++ [c] })
       | .error e => (Except.error e, { client := some h, trace := st.trace ++ [c] })) := by
  obtain ⟨cl, tr⟩ := st
  cases cl with
  | none =>
    cases hr : fresh.respond (.updateUser { password := password }) <;>
      simp [updatePassword, AuthM.run, createClient, callAuth, Bind.bind, Monad.toBind,
        Pure.pure, hr]
  | some c0 =>
    cases hr : c0.respond (.updateUser { password := password }) <;>
      simp [updatePassword, AuthM.run, createClient, callAuth, Bind.bind, Monad.toBind,
        Pure.pure, hr]

end RunLemmas

/-! ## The home page component, `src/app/page.tsx` -/

/-- A rendered element tree: a tag with attributes and children, or text. -/
inductive Element
  | el (tag : String) (attrs : List (String × String)) (children : List Element)
  | text (s : String)
  deriving Repr

/-- Modelled from the spec: the shadcn/ui component file `components/ui/button.tsx`
imported by `page.tsx` is not under `src/`; per the spec it is one of the
"prebuilt UI components" rendering static content.  With `asChild` (the only
way `page.tsx` uses it) the button renders its single child element itself
(slot behaviour); styling class merging is not modelled. -/
def Button (asChild : Bool) (children : List Element) : Element :=
  if asChild then
    match children with
    | [c] => c
    | cs => Element.el "button" [] cs
  else Element.el "button" [] children

/-- Modelled from the spec: `components/ui/card.tsx` is not under `src/`; the
card components are static styled `div` wrappers around their children. -/
def Card (children : List Element) : Element :=
  Element.el "div" [("class", "card")] children

/-- Modelled from the spec: static styled wrapper, see `Card`. -/
def CardHeader (children : List Element) : Element :=
  Element.el "div" [("class", "card-header")] children

/-- Modelled from the spec: static styled wrapper, see `Card`. -/
def CardTitle (children : List Element) : Element :=
  Element.el "div" [("class", "card-title")] children

/-- Modelled from the spec: static styled wrapper, see `Card`. -/
def CardDescription (children : List Element) : Element :=
  Element.el "div" [("class", "card-description")] children

/-- Modelled from the spec: static styled wrapper, see `Card`. -/
def CardContent (children : List Element) : Element :=
  Element.el "div" [("class", "card-content")] children

/-- The element tree returned by the `Home` component of `src/app/page.tsx`:
a static page with a heading, three feature cards, and two anchor links. -/
def Home : Element :=
  Element.el "div"
    [("className", "flex min-h-screen flex-col items-center justify-center bg-background p-8")]
    [Element.el "main" [("className", "flex max-w-4xl flex-col items-center gap-8")]
      [Element.el "div" [("className", "text-center")]
        [Element.el "h1" [("className", "text-4xl font-bold tracking-tight")]
          [Element.text "Next.js + Supabase Starter"],
         Element.el "p" [("className", "mt-4 text-lg text-muted-foreground")]
          [Element.text "A modern starter template with authentication ready to go"]],
       Element.el "div" [("className", "grid gap-6 md:grid-cols-3")]
        [Card
          [CardHeader
            [CardTitle [Element.text "Next.js 15"],
             CardDescription [Element.text "App Router, Server Components, and Turbopack"]],
           CardContent
            [Element.el "p" [("className", "text-sm text-muted-foreground")]
              [Element.text "Built on the latest Next.js with TypeScript support"]]],
         Card
          [CardHeader
            [CardTitle [Element.text "Supabase Auth"],
             CardDescription [Element.text "Email, OAuth, and magic links"]],
           CardContent
            [Element.el "p" [("className", "text-sm text-muted-foreground")]
              [Element.text "Pre-configured authentication with session management"]]],
         Card
          [CardHeader
            [CardTitle [Element.text "shadcn/ui"],
             CardDescription [Element.text "Beautiful, accessible components"]],
           CardContent
            [Element.el "p" [("className", "text-sm text-muted-foreground")]
              [Element.text "Customizable components built with Radix and Tailwind"]]]],
       Element.el "div" [("className", "flex gap-4")]
        [Button true
          [Element.el "a" [("href", "/login")] [Element.text "Get Started"]],
         Button true
          [Element.el "a"
            [("href", "https://github.com"), ("target", "_blank"), ("rel", "noopener noreferrer")]
            [Element.text "View on GitHub"]]]]]

mutual

/-- The `href` targets of all anchor (`a`) elements in a tree, in order. -/
def Element.anchorHrefs : Element → List String
  | .text _ => []
  | .el tag attrs children =>
      (if tag = "a" then
        attrs.filterMap (fun p => if p.1 = "href" then some p.2 else none)
       else []) ++ anchorHrefsList children

/-- The `href` targets of all anchors in a list of trees, in order. -/
def anchorHrefsList : List Element → List String
  | [] => []
  | e :: es => e.anchorHrefs ++ anchorHrefsList es

end

/-- Rendering the home page inside the effect model: `Home` is a plain value,
so rendering returns it without reading or writing any state and without
making any SDK call. -/
def HomeRender {Data Err Exn : Type} : AuthM Data Err Exn Element := pure Home

/-! ## The PocketBase docker bootstrap script -/

/-- One externally visible command of the bootstrap script. -/
inductive ScriptEvent
  | psAll
  | dockerStop
  | dockerRm
  | mkdirData
  | dockerRun
  | sleep3
  | psRunning
  deriving DecidableEq, Fintype, Repr

/-- The environment a run of the script observes:
  * `dockerInstalled`: whether `command -v docker` succeeds;
  * `containerListed`: whether `docker ps -a` output contains `pocketbase`;
  * `runOk`: whether `docker run` exits with status 0;
  * `runningAfter`: whether, after `sleep 3`, `docker ps` output contains
    `pocketbase`. -/
structure DockerEnv where
  dockerInstalled : Bool
  containerListed : Bool
  runOk : Bool
  runningAfter : Bool
  deriving DecidableEq, Fintype, Repr

/-- Result of one run of the script: its exit status, the commands it
executed, and the lines it echoed. -/
structure ScriptResult where
  exitCode : Nat
  events : List ScriptEvent
  output : List String
  deriving DecidableEq, Repr

/-- The PocketBase docker setup script, as a function of the environment it
observes.  The script is linear: check Docker, stop and remove any listed
`pocketbase` container, create the data directory, `docker run` the container
(under `set -e`, a failing run aborts the script with a nonzero status,
represented here as 1), sleep, then check that the container is running. -/
def setupScript (env : DockerEnv) : ScriptResult :=
  let header := ["🚀 Setting up PocketBase with Docker...",
                 "========================================"]
  if env.dockerInstalled = false then
    { exitCode := 1
      events := []
      output := header ++
        ["❌ Docker is not installed. Please install Docker first.",
         "   Visit: https://docs.docker.com/get-docker/"] }
  else
    let stopEvents := if env.containerListed then
      [ScriptEvent.dockerStop, ScriptEvent.dockerRm] else []
    let stopOut := if env.containerListed then
      ["⚠️  Stopping existing PocketBase container..."] else []
    let preRunEvents := ScriptEvent.psAll :: stopEvents ++
      [ScriptEvent.mkdirData, ScriptEvent.dockerRun]
    let preRunOut := header ++ stopOut ++
      ["📁 Creating data directory: ./pb_data",
       "🐳 Starting PocketBase container..."]
    if env.runOk = false then
      { exitCode := 1, events := preRunEvents, output := preRunOut }
    else
      let banner :=
        ["========================================",
         "✅ PocketBase is starting up!",
         "",
         "🌐 Admin UI: http://localhost:8090/_/",
         "📖 API Docs: http://localhost:8090/api/docs",
         "📁 Data directory: ./pb_data",
         "",
         "To view logs: docker logs -f pocketbase",
         "To stop: docker stop pocketbase",
         "",
         "⏳ Waiting for PocketBase to be ready..."]
      let checkedEvents := preRunEvents ++ [ScriptEvent.sleep3, ScriptEvent.psRunning]
      if env.runningAfter then
        { exitCode := 0
          events := checkedEvents
          output := preRunOut ++ banner ++ ["✅ PocketBase is running successfully!"] }
      else
        { exitCode := 1
          events := checkedEvents
          output := preRunOut ++ banner ++
            ["❌ Something went wrong. Check logs with: docker logs pocketbase"] }

/-! ## The two backend-as-a-service platforms appearing in the repository -/

/-- The backend-as-a-service platforms the repository mentions. -/
inductive Platform
  | supabase
  | pocketbase
  deriving DecidableEq, Repr

/-- The platform targeted by the auth wrapper code in
`src/lib/supabase/auth.ts`: the client import path is `lib/supabase` and every
call site is a `supabase.auth.<method>` invocation. -/
def libAuthPlatform : Platform := .supabase

/-- The platform the bulk of the reference documentation corpus documents: the
skill frontmatter is named `pocketbase`, and the corpus describes PocketBase
setup, collections, security rules, CLI and Go extensions. -/
def docsCorpusPlatform : Platform := .pocketbase

/-- The name of the `supabase.auth` SDK method an outbound call invokes. -/
def SdkCall.methodName : SdkCall → String
  | .signInWithPassword _ => "signInWithPassword"
  | .signUp _ => "signUp"
  | .signOut => "signOut"
  | .signInWithOAuth _ => "signInWithOAuth"
  | .resetPasswordForEmail _ => "resetPasswordForEmail"
  | .updateUser _ => "updateUser"

/-- The platform every `SdkCall` belongs to: each of the six methods is a
method of the `supabase.auth` client object `auth.ts` obtains from
`createClient`. -/
def SdkCall.platform : SdkCall → Platform := fun _ => .supabase

/-- The auth method names of the platform the documentation corpus documents
(the PocketBase JS SDK: `authWithPassword`, `authWithOAuth2`, `authRefresh`
appear in the corpus). -/
def pocketbaseAuthMethods : List String :=
  ["authWithPassword", "authWithOAuth2", "authRefresh"]

section ProjLemmas

variable {Data Err Exn : Type}

/-- The outbound trace of `signInWithEmail`: exactly one SDK call, the corresponding
method with the arguments the wrapper builds. -/
theorem signInWithEmail_trace (fresh : Sdk Data Err Exn) (email password : String)
    (st : AuthState Data Err Exn) :
    ((signInWithEmail fresh email password).run st).2.trace
      = st.trace ++ [.signInWithPassword ⟨email, password⟩] := by
  simp only [signInWithEmail_run]
  cases hr : (st.client.getD fresh).respond (.signInWithPassword ⟨email, password⟩) <;>
    simp [hr]

/-- After `signInWithEmail`, the process-wide client handle is the one the wrapper used. -/
theorem signInWithEmail_client (fresh : Sdk Data Err Exn) (email password : String)
    (st : AuthState Data Err Exn) :
    ((signInWithEmail fresh email password).run st).2.client
      = some (st.client.getD fresh) := by
  simp only [signInWithEmail_run]
  cases hr : (st.client.getD fresh).respond (.signInWithPassword ⟨email, password⟩) <;>
    simp [hr]

/-- When the SDK call of `signInWithEmail` returns a response object, the wrapper
returns its fields unchanged. -/
theorem signInWithEmail_ok (fresh : Sdk Data Err Exn) (email password : String)
    (st : AuthState Data Err Exn) (r : DataErr Data Err)
    (h : (st.client.getD fresh).respond (.signInWithPassword ⟨email, password⟩) = Except.ok r) :
    ((signInWithEmail fresh email password).run st).1 = Except.ok ⟨r.data, r.error⟩ := by
  simp [signInWithEmail_run, h]

/-- When the SDK call of `signInWithEmail` raises, the exception propagates out of the
wrapper unchanged. -/
theorem signInWithEmail_err (fresh : Sdk Data Err Exn) (email password : String)
    (st : AuthState Data Err Exn) (e : Exn)
    (h : (st.client.getD fresh).respond (.signInWithPassword ⟨email, password⟩) = Except.error e) :
    ((signInWithEmail fresh email password).run st).1 = Except.error e := by
  simp [signInWithEmail_run, h]

/-- The outbound trace of `signUpWithEmail`: exactly one SDK call, the corresponding
method with the arguments the wrapper builds. -/
theorem signUpWithEmail_trace (fresh : Sdk Data Err Exn) (email password : String)
    (st : AuthState Data Err Exn) :
    ((signUpWithEmail fresh email password).run st).2.trace
      = st.trace ++ [.signUp ⟨email, password⟩] := by
  simp only [signUpWithEmail_run]
  cases hr : (st.client.getD fresh).respond (.signUp ⟨email, password⟩) <;>
    simp [hr]

/-- After `signUpWithEmail`, the process-wide client handle is the one the wrapper used. -/
theorem signUpWithEmail_client (fresh : Sdk Data Err Exn) (email password : String)
    (st : AuthState Data Err Exn) :
    ((signUpWithEmail fresh email password).run st).2.client
      = some (st.client.getD fresh) := by
  simp only [signUpWithEmail_run]
  cases hr : (st.client.getD fresh).respond (.signUp ⟨email, password⟩) <;>
    simp [hr]

/-- When the SDK call of `signUpWithEmail` returns a response object, the wrapper
returns its fields unchanged. -/
theorem signUpWithEmail_ok (fresh : Sdk Data Err Exn) (email password : String)
    (st : AuthState Data Err Exn) (r : DataErr Data Err)
    (h : (st.client.getD fresh).respond (.signUp ⟨email, password⟩) = Except.ok r) :
    ((signUpWithEmail fresh email password).run st).1 = Except.ok ⟨r.data, r.error⟩ := by
  simp [signUpWithEmail_run, h]

/-- When the SDK call of `signUpWithEmail` raises, the exception propagates out of the
wrapper unchanged. -/
theorem signUpWithEmail_err (fresh : Sdk Data Err Exn) (email password : String)
    (st : AuthState Data Err Exn) (e : Exn)
    (h : (st.client.getD fresh).respond (.signUp ⟨email, password⟩) = Except.error e) :
    ((signUpWithEmail fresh email password).run st).1 = Except.error e := by
  simp [signUpWithEmail_run, h]

/-- The outbound trace of `signOut`: exactly one SDK call, the corresponding
method with the arguments the wrapper builds. -/
theorem signOut_trace (fresh : Sdk Data Err Exn)
    (st : AuthState Data Err Exn) :
    ((signOut fresh).run st).2.trace
      = st.trace ++ [.signOut] := by
  simp only [signOut_run]
  cases hr : (st.client.getD fresh).respond (.signOut) <;>
    simp [hr]

/-- After `signOut`, the process-wide client handle is the one the wrapper used. -/
theorem signOut_client (fresh : Sdk Data Err Exn)
    (st : AuthState Data Err Exn) :
    ((signOut fresh).run st).2.client
      = some (st.client.getD fresh) := by
  simp only [signOut_run]
  cases hr : (st.client.getD fresh).respond (.signOut) <;>
    simp [hr]

/-- When the SDK call of `signOut` returns a response object, the wrapper
returns its fields unchanged. -/
theorem signOut_ok (fresh : Sdk Data Err Exn)
    (st : AuthState Data Err Exn) (r : DataErr Data Err)
    (h : (st.client.getD fresh).respond (.signOut) = Except.ok r) :
    ((signOut fresh).run st).1 = Except.ok ⟨r.error⟩ := by
  simp [signOut_run, h]

/-- When the SDK call of `signOut` raises, the exception propagates out of the
wrapper unchanged. -/
theorem signOut_err (fresh : Sdk Data Err Exn)
    (st : AuthState Data Err Exn) (e : Exn)
    (h : (st.client.getD fresh).respond (.signOut) = Except.error e) :
    ((signOut fresh).run st).1 = Except.error e := by
  simp [signOut_run, h]

/-- The outbound trace of `signInWithOAuth`: exactly one SDK call, the corresponding
method with the arguments the wrapper builds. -/
theorem signInWithOAuth_trace (fresh : Sdk Data Err Exn) (w : Window) (provider : Provider)
    (st : AuthState Data Err Exn) :
    ((signInWithOAuth fresh w provider).run st).2.trace
      = st.trace ++ [.signInWithOAuth ⟨provider, w.location.origin ++ "/auth/callback"⟩] := by
  simp only [signInWithOAuth_run]
  cases hr : (st.client.getD fresh).respond (.signInWithOAuth ⟨provider, w.location.origin ++ "/auth/callback"⟩) <;>
    simp [hr]

/-- After `signInWithOAuth`, the process-wide client handle is the one the wrapper used. -/
theorem signInWithOAuth_client (fresh : Sdk Data Err Exn) (w : Window) (provider : Provider)
    (st : AuthState Data Err Exn) :
    ((signInWithOAuth fresh w provider).run st).2.client
      = some (st.client.getD fresh) := by
  simp only [signInWithOAuth_run]
  cases hr : (st.client.getD fresh).respond (.signInWithOAuth ⟨provider, w.location.origin ++ "/auth/callback"⟩) <;>
    simp [hr]

/-- When the SDK call of `signInWithOAuth` returns a response object, the wrapper
returns its fields unchanged. -/
theorem signInWithOAuth_ok (fresh : Sdk Data Err Exn) (w : Window) (provider : Provider)
    (st : AuthState Data Err Exn) (r : DataErr Data Err)
    (h : (st.client.getD fresh).respond (.signInWithOAuth ⟨provider, w.location.origin ++ "/auth/callback"⟩) = Except.ok r) :
    ((signInWithOAuth fresh w provider).run st).1 = Except.ok ⟨r.data, r.error⟩ := by
  simp [signInWithOAuth_run, h]

/-- When the SDK call of `signInWithOAuth` raises, the exception propagates out of the
wrapper unchanged. -/
theorem signInWithOAuth_err (fresh : Sdk Data Err Exn) (w : Window) (provider : Provider)
    (st : AuthState Data Err Exn) (e : Exn)
    (h : (st.client.getD fresh).respond (.signInWithOAuth ⟨provider, w.location.origin ++ "/auth/callback"⟩) = Except.error e) :
    ((signInWithOAuth fresh w provider).run st).1 = Except.error e := by
  simp [signInWithOAuth_run, h]

/-- The outbound trace of `resetPassword`: exactly one SDK call, the corresponding
method with the arguments the wrapper builds. -/
theorem resetPassword_trace (fresh : Sdk Data Err Exn) (w : Window) (email : String)
    (st : AuthState Data Err Exn) :
    ((resetPassword fresh w email).run st).2.trace
      = st.trace ++ [.resetPasswordForEmail ⟨email, w.location.origin ++ "/auth/reset-password"⟩] := by
  simp only [resetPassword_run]
  cases hr : (st.client.getD fresh).respond (.resetPasswordForEmail ⟨email, w.location.origin ++ "/auth/reset-password"⟩) <;>
    simp [hr]

/-- After `resetPassword`, the process-wide client handle is the one the wrapper used. -/
theorem resetPassword_client (fresh : Sdk Data Err Exn) (w : Window) (email : String)
    (st : AuthState Data Err Exn) :
    ((resetPassword fresh w email).run st).2.client
      = some (st.client.getD fresh) := by
  simp only [resetPassword_run]
  cases hr : (st.client.getD fresh).respond (.resetPasswordForEmail ⟨email, w.location.origin ++ "/auth/reset-password"⟩) <;>
    simp [hr]

/-- When the SDK call of `resetPassword` returns a response object, the wrapper
returns its fields unchanged. -/
theorem resetPassword_ok (fresh : Sdk Data Err Exn) (w : Window) (email : String)
    (st : AuthState Data Err Exn) (r : DataErr Data Err)
    (h : (st.client.getD fresh).respond (.resetPasswordForEmail ⟨email, w.location.origin ++ "/auth/reset-password"⟩) = Except.ok r) :
    ((resetPassword fresh w email).run st).1 = Except.ok ⟨r.data, r.error⟩ := by
  simp [resetPassword_run, h]

/-- When the SDK call of `resetPassword` raises, the exception propagates out of the
wrapper unchanged. -/
theorem resetPassword_err (fresh : Sdk Data Err Exn) (w : Window) (email : String)
    (st : AuthState Data Err Exn) (e : Exn)
    (h : (st.client.getD fresh).respond (.resetPasswordForEmail ⟨email, w.location.origin ++ "/auth/reset-password"⟩) = Except.error e) :
    ((resetPassword fresh w email).run st).1 = Except.error e := by
  simp [resetPassword_run, h]

/-- The outbound trace of `updatePassword`: exactly one SDK call, the corresponding
method with the arguments the wrapper builds. -/
theorem updatePassword_trace (fresh : Sdk Data Err Exn) (password : String)
    (st : AuthState Data Err Exn) :
    ((updatePassword fresh password).run st).2.trace
      = st.trace ++ [.updateUser ⟨password⟩] := by
  simp only [updatePassword_run]
  cases hr : (st.client.getD fresh).respond (.updateUser ⟨password⟩) <;>
    simp [hr]

/-- After `updatePassword`, the process-wide client handle is the one the wrapper used. -/
theorem updatePassword_client (fresh : Sdk Data Err Exn) (password : String)
    (st : AuthState Data Err Exn) :
    ((updatePassword fresh password).run st).2.client
      = some (st.client.getD fresh) := by
  simp only [updatePassword_run]
  cases hr : (st.client.getD fresh).respond (.updateUser ⟨password⟩) <;>
    simp [hr]

/-- When the SDK call of `updatePassword` returns a response object, the wrapper
returns its fields unchanged. -/
theorem updatePassword_ok (fresh : Sdk Data Err Exn) (password : String)
    (st : AuthState Data Err Exn) (r : DataErr Data Err)
    (h : (st.client.getD fresh).respond (.updateUser ⟨password⟩) = Except.ok r) :
    ((updatePassword fresh password).run st).1 = Except.ok ⟨r.data, r.error⟩ := by
  simp [updatePassword_run, h]

/-- When the SDK call of `updatePassword` raises, the exception propagates out of the
wrapper unchanged. -/
theorem updatePassword_err (fresh : Sdk Data Err Exn) (password : String)
    (st : AuthState Data Err Exn) (e : Exn)
    (h : (st.client.getD fresh).respond (.updateUser ⟨password⟩) = Except.error e) :
    ((updatePassword fresh password).run st).1 = Except.error e := by
  simp [updatePassword_run, h]

end ProjLemmas

/-! ## Concrete fixtures for evaluating the development on closed inputs -/

/-- A concrete SDK behaviour: data values are `Nat`, error values and raised
exceptions are `String`.  `signOut` responds with a data value and an error,
`updateUser` raises, everything else succeeds cleanly. -/
def sdk0 : Sdk Nat String String where
  respond := fun c =>
    match c with
    | .signOut => Except.ok { data := 7, error := some "session missing" }
    | .updateUser _ => Except.error "network down"
    | _ => Except.ok { data := 1, error := none }

/-- An empty starting state: no client handle installed, no calls made. -/
def st0 : AuthState Nat String String where
  client := none
  trace := []

/-- A starting state whose process-wide client handle is already installed. -/
def st1 : AuthState Nat String String where
  client := some sdk0
  trace := []

/-- A browser window at a local development origin. -/
def w1 : Window := { location := { origin := "http://localhost:3000" } }

/-- A browser window at a different origin. -/
def w2 : Window := { location := { origin := "https://example.com" } }

/-! ## The claims -/

/-- C1, counterexample: the claim that every wrapper passes the SDK exactly
the arguments the caller supplied fails for `signInWithOAuth`: with the same
caller argument (`google`), the SDK receives different argument objects under
different ambient browser origins, because the wrapper adds a `redirectTo`
option of its own that is no argument of the wrapper. -/
theorem c1_oauth_adds_arguments :
    ((signInWithOAuth sdk0 w1 Provider.google).run st0).2.trace ≠
    ((signInWithOAuth sdk0 w2 Provider.google).run st0).2.trace := by
  decide

/-- C1, amended: every auth wrapper invokes exactly its corresponding SDK
method, exactly once, and returns that method's data and error unchanged
(`signOut` keeps only the error); `signInWithEmail`, `signUpWithEmail`,
`signOut` and `updatePassword` pass the SDK exactly the caller's arguments,
while `signInWithOAuth` and `resetPassword` pass the caller's arguments
together with a `redirectTo` option derived from `window.location.origin`;
no wrapper validates, retries, caches or orchestrates beyond this. -/
theorem c1_wrappers_delegate {Data Err Exn : Type} (fresh : Sdk Data Err Exn)
    (st : AuthState Data Err Exn) (email password : String) (w : Window)
    (provider : Provider) :
    ((((signInWithEmail fresh email password).run st).2.trace
        = st.trace ++ [.signInWithPassword ⟨email, password⟩])
      ∧ (((signInWithEmail fresh email password).run st).1
        = ((st.client.getD fresh).respond (.signInWithPassword ⟨email, password⟩)).map
            (fun r => ⟨r.data, r.error⟩)))
    ∧ ((((signUpWithEmail fresh email password).run st).2.trace
        = st.trace ++ [.signUp ⟨email, password⟩])
      ∧ (((signUpWithEmail fresh email password).run st).1
        = ((st.client.getD fresh).respond (.signUp ⟨email, password⟩)).map
            (fun r => ⟨r.data, r.error⟩)))
    ∧ ((((signOut fresh).run st).2.trace = st.trace ++ [.signOut])
      ∧ (((signOut fresh).run st).1
        = ((st.client.getD fresh).respond .signOut).map (fun r => ⟨r.error⟩)))
    ∧ ((((signInWithOAuth fresh w provider).run st).2.trace
        = st.trace ++ [.signInWithOAuth ⟨provider, w.location.origin ++ "/auth/callback"⟩])
      ∧ (((signInWithOAuth fresh w provider).run st).1
        = ((st.client.getD fresh).respond
            (.signInWithOAuth ⟨provider, w.location.origin ++ "/auth/callback"⟩)).map
            (fun r => ⟨r.data, r.error⟩)))
    ∧ ((((resetPassword fresh w email).run st).2.trace
        = st.trace ++ [.resetPasswordForEmail ⟨email, w.location.origin ++ "/auth/reset-password"⟩])
      ∧ (((resetPassword fresh w email).run st).1
        = ((st.client.getD fresh).respond
            (.resetPasswordForEmail ⟨email, w.location.origin ++ "/auth/reset-password"⟩)).map
            (fun r => ⟨r.data, r.error⟩)))
    ∧ ((((updatePassword fresh password).run st).2.trace
        = st.trace ++ [.updateUser ⟨password⟩])
      ∧ (((updatePassword fresh password).run st).1
        = ((st.client.getD fresh).respond (.updateUser ⟨password⟩)).map
            (fun r => ⟨r.data, r.error⟩))) := by
  refine ⟨⟨signInWithEmail_trace fresh email password st, ?_⟩,
          ⟨signUpWithEmail_trace fresh email password st, ?_⟩,
          ⟨signOut_trace fresh st, ?_⟩,
          ⟨signInWithOAuth_trace fresh w provider st, ?_⟩,
          ⟨resetPassword_trace fresh w email st, ?_⟩,
          ⟨updatePassword_trace fresh password st, ?_⟩⟩ <;>
    first
    | (simp only [signInWithEmail_run]
       cases hr : (st.client.getD fresh).respond (.signInWithPassword ⟨email, password⟩) <;>
         simp [hr, Except.map])
    | (simp only [signUpWithEmail_run]
       cases hr : (st.client.getD fresh).respond (.signUp ⟨email, password⟩) <;> simp [hr, Except.map])
    | (simp only [signOut_run]
       cases hr : (st.client.getD fresh).respond .signOut <;> simp [hr, Except.map])
    | (simp only [signInWithOAuth_run]
       cases hr : (st.client.getD fresh).respond
           (.signInWithOAuth ⟨provider, w.location.origin ++ "/auth/callback"⟩) <;> simp [hr, Except.map])
    | (simp only [resetPassword_run]
       cases hr : (st.client.getD fresh).respond
           (.resetPasswordForEmail ⟨email, w.location.origin ++ "/auth/reset-password"⟩) <;>
         simp [hr, Except.map])
    | (simp only [updatePassword_run]
       cases hr : (st.client.getD fresh).respond (.updateUser ⟨password⟩) <;> simp [hr, Except.map])

/-- C2: for every auth wrapper and every outcome of the underlying SDK call,
the error value in the wrapper's returned object is exactly the error value of
the SDK's response, and an exception raised by the SDK call propagates out of
the wrapper unchanged (`Except.map` keeps the `error` constructor intact, so
both sides raise identical exceptions, and the mapped projection shows the
returned object's `error` field equals the SDK response's). -/
theorem c2_errors_unchanged {Data Err Exn : Type} (fresh : Sdk Data Err Exn)
    (st : AuthState Data Err Exn) (email password : String) (w : Window)
    (provider : Provider) :
    (((signInWithEmail fresh email password).run st).1.map DataErr.error
      = ((st.client.getD fresh).respond (.signInWithPassword ⟨email, password⟩)).map DataErr.error)
    ∧ (((signUpWithEmail fresh email password).run st).1.map DataErr.error
      = ((st.client.getD fresh).respond (.signUp ⟨email, password⟩)).map DataErr.error)
    ∧ (((signOut fresh).run st).1.map ErrOnly.error
      = ((st.client.getD fresh).respond .signOut).map DataErr.error)
    ∧ (((signInWithOAuth fresh w provider).run st).1.map DataErr.error
      = ((st.client.getD fresh).respond
          (.signInWithOAuth ⟨provider, w.location.origin ++ "/auth/callback"⟩)).map DataErr.error)
    ∧ (((resetPassword fresh w email).run st).1.map DataErr.error
      = ((st.client.getD fresh).respond
          (.resetPasswordForEmail ⟨email, w.location.origin ++ "/auth/reset-password"⟩)).map
          DataErr.error)
    ∧ (((updatePassword fresh password).run st).1.map DataErr.error
      = ((st.client.getD fresh).respond (.updateUser ⟨password⟩)).map DataErr.error) := by
  refine ⟨?_, ?_, ?_, ?_, ?_, ?_⟩ <;>
    first
    | (simp only [signInWithEmail_run]
       cases hr : (st.client.getD fresh).respond (.signInWithPassword ⟨email, password⟩) <;>
         simp [hr, Except.map])
    | (simp only [signUpWithEmail_run]
       cases hr : (st.client.getD fresh).respond (.signUp ⟨email, password⟩) <;> simp [hr, Except.map])
    | (simp only [signOut_run]
       cases hr : (st.client.getD fresh).respond .signOut <;> simp [hr, Except.map])
    | (simp only [signInWithOAuth_run]
       cases hr : (st.client.getD fresh).respond
           (.signInWithOAuth ⟨provider, w.location.origin ++ "/auth/callback"⟩) <;> simp [hr, Except.map])
    | (simp only [resetPassword_run]
       cases hr : (st.client.getD fresh).respond
           (.resetPasswordForEmail ⟨email, w.location.origin ++ "/auth/reset-password"⟩) <;>
         simp [hr, Except.map])
    | (simp only [updatePassword_run]
       cases hr : (st.client.getD fresh).respond (.updateUser ⟨password⟩) <;> simp [hr, Except.map])

/-- C4: one invocation of any of the six auth wrappers makes at most one
outbound SDK call (the trace grows by at most one entry) and returns, and
rendering the home page makes no outbound call at all. -/
theorem c4_at_most_one_outbound_call {Data Err Exn : Type} (fresh : Sdk Data Err Exn)
    (st : AuthState Data Err Exn) (email password : String) (w : Window)
    (provider : Provider) :
    (((signInWithEmail fresh email password).run st).2.trace.length ≤ st.trace.length + 1)
    ∧ (((signUpWithEmail fresh email password).run st).2.trace.length ≤ st.trace.length + 1)
    ∧ (((signOut fresh).run st).2.trace.length ≤ st.trace.length + 1)
    ∧ (((signInWithOAuth fresh w provider).run st).2.trace.length ≤ st.trace.length + 1)
    ∧ (((resetPassword fresh w email).run st).2.trace.length ≤ st.trace.length + 1)
    ∧ (((updatePassword fresh password).run st).2.trace.length ≤ st.trace.length + 1)
    ∧ ((@HomeRender Data Err Exn).run st = (Except.ok Home, st)) := by
  refine ⟨?_, ?_, ?_, ?_, ?_, ?_, rfl⟩ <;>
    simp [signInWithEmail_trace, signUpWithEmail_trace, signOut_trace,
      signInWithOAuth_trace, resetPassword_trace, updatePassword_trace]

/-- C5: the home page component is a pure constant of the rendering state —
rendering returns the fixed tree `Home` in every state and leaves the state
untouched (no mutation, no data fetching, no SDK call) — and that tree
contains exactly two anchor links, one to `/login` and one to
`https://github.com`. -/
theorem c5_home_static {Data Err Exn : Type} (st : AuthState Data Err Exn) :
    ((@HomeRender Data Err Exn).run st = (Except.ok Home, st))
    ∧ Element.anchorHrefs Home = ["/login", "https://github.com"] :=
  ⟨rfl, rfl⟩

/-- Same behaviour as `sdk0` except for the `data` value of the `signOut`
response. -/
def sdk0b : Sdk Nat String String where
  respond := fun c =>
    match c with
    | .signOut => Except.ok { data := 99, error := some "session missing" }
    | .updateUser _ => Except.error "network down"
    | _ => Except.ok { data := 1, error := none }

/-- The `supabase.auth` method names invoked across `auth.ts`. -/
def supabaseAuthMethods : List String :=
  ["signInWithPassword", "signUp", "signOut", "signInWithOAuth",
   "resetPasswordForEmail", "updateUser"]

/-- C3: every run of the docker bootstrap script executes `docker run` at most
once — indeed every command at most once, so there is no retry or recovery —
and each of the two failure paths (Docker not installed; container not running
after start) prints its error line and exits with the nonzero status 1. -/
theorem c3_script_failure_paths :
    ∀ env : DockerEnv,
      ((setupScript env).events.count ScriptEvent.dockerRun ≤ 1)
      ∧ (∀ e : ScriptEvent, (setupScript env).events.count e ≤ 1)
      ∧ (env.dockerInstalled = false →
          (setupScript env).exitCode = 1
          ∧ "❌ Docker is not installed. Please install Docker first."
              ∈ (setupScript env).output)
      ∧ (env.dockerInstalled = true → env.runOk = true → env.runningAfter = false →
          (setupScript env).exitCode = 1
          ∧ "❌ Something went wrong. Check logs with: docker logs pocketbase"
              ∈ (setupScript env).output) := by
  decide

/-- C3, witness: the two failure paths evaluated on concrete environments. -/
theorem c3_script_failure_paths_witness :
    ((setupScript ⟨false, true, true, true⟩).exitCode = 1
      ∧ "❌ Docker is not installed. Please install Docker first."
          ∈ (setupScript ⟨false, true, true, true⟩).output)
    ∧ ((setupScript ⟨true, true, true, false⟩).exitCode = 1
      ∧ "❌ Something went wrong. Check logs with: docker logs pocketbase"
          ∈ (setupScript ⟨true, true, true, false⟩).output) :=
  ⟨(c3_script_failure_paths ⟨false, true, true, true⟩).2.2.1 rfl,
   (c3_script_failure_paths ⟨true, true, true, false⟩).2.2.2 rfl rfl rfl⟩

/-- C6: every SDK call the auth wrappers can make is a method of the platform
named in the `lib/supabase` auth code (supabase), and none is an auth method
of the platform the documentation corpus documents (PocketBase); the two
platforms are distinct. -/
theorem c6_code_docs_platform_mismatch :
    (∀ c : SdkCall, c.platform = libAuthPlatform
      ∧ c.methodName ∈ supabaseAuthMethods
      ∧ c.methodName ∉ pocketbaseAuthMethods)
    ∧ libAuthPlatform = Platform.supabase
    ∧ docsCorpusPlatform = Platform.pocketbase
    ∧ libAuthPlatform ≠ docsCorpusPlatform := by
  refine ⟨fun c => ⟨rfl, ?_, ?_⟩, rfl, rfl, by decide⟩ <;>
    cases c <;> simp [SdkCall.methodName, pocketbaseAuthMethods, supabaseAuthMethods]

/-- C7: the backend client is one process-wide handle with an explicit
initialization step — `createClient` installs the handle on first use, and on
an initialized state always returns the installed handle with the state
unchanged — and every auth wrapper is a stateless pass-through over that one
handle: run on any state whose handle is `h`, each wrapper leaves the handle
exactly `h` and its result is determined by `h` and its arguments alone. -/
theorem c7_single_handle_stateless {Data Err Exn : Type} (fresh h : Sdk Data Err Exn)
    (st : AuthState Data Err Exn) (email password : String) (w : Window)
    (provider : Provider) :
    ((createClient fresh).run { client := none, trace := st.trace }
        = (Except.ok fresh, { client := some fresh, trace := st.trace }))
    ∧ ((createClient fresh).run { client := some h, trace := st.trace }
        = (Except.ok h, { client := some h, trace := st.trace }))
    ∧ (st.client = some h →
        ((((signInWithEmail fresh email password).run st).2.client = some h)
          ∧ (((signInWithEmail fresh email password).run st).1
            = (h.respond (.signInWithPassword ⟨email, password⟩)).map
                (fun r => ⟨r.data, r.error⟩)))
        ∧ ((((signUpWithEmail fresh email password).run st).2.client = some h)
          ∧ (((signUpWithEmail fresh email password).run st).1
            = (h.respond (.signUp ⟨email, password⟩)).map (fun r => ⟨r.data, r.error⟩)))
        ∧ ((((signOut fresh).run st).2.client = some h)
          ∧ (((signOut fresh).run st).1
            = (h.respond .signOut).map (fun r => ⟨r.error⟩)))
        ∧ ((((signInWithOAuth fresh w provider).run st).2.client = some h)
          ∧ (((signInWithOAuth fresh w provider).run st).1
            = (h.respond (.signInWithOAuth ⟨provider, w.location.origin ++ "/auth/callback"⟩)).map
                (fun r => ⟨r.data, r.error⟩)))
        ∧ ((((resetPassword fresh w email).run st).2.client = some h)
          ∧ (((resetPassword fresh w email).run st).1
            = (h.respond
                (.resetPasswordForEmail ⟨email, w.location.origin ++ "/auth/reset-password"⟩)).map
                (fun r => ⟨r.data, r.error⟩)))
        ∧ ((((updatePassword fresh password).run st).2.client = some h)
          ∧ (((updatePassword fresh password).run st).1
            = (h.respond (.updateUser ⟨password⟩)).map (fun r => ⟨r.data, r.error⟩)))) := by
  refine ⟨rfl, rfl, fun hc => ?_⟩
  have hg : st.client.getD fresh = h := by rw [hc]; rfl
  refine ⟨⟨?_, ?_⟩, ⟨?_, ?_⟩, ⟨?_, ?_⟩, ⟨?_, ?_⟩, ⟨?_, ?_⟩, ⟨?_, ?_⟩⟩
  · rw [signInWithEmail_client fresh email password st, hg]
  · simp only [signInWithEmail_run, hg]
    cases hr : h.respond (.signInWithPassword ⟨email, password⟩) <;> simp [hr, Except.map]
  · rw [signUpWithEmail_client fresh email password st, hg]
  · simp only [signUpWithEmail_run, hg]
    cases hr : h.respond (.signUp ⟨email, password⟩) <;> simp [hr, Except.map]
  · rw [signOut_client fresh st, hg]
  · simp only [signOut_run, hg]
    cases hr : h.respond .signOut <;> simp [hr, Except.map]
  · rw [signInWithOAuth_client fresh w provider st, hg]
  · simp only [signInWithOAuth_run, hg]
    cases hr : h.respond (.signInWithOAuth ⟨provider, w.location.origin ++ "/auth/callback"⟩) <;>
      simp [hr, Except.map]
  · rw [resetPassword_client fresh w email st, hg]
  · simp only [resetPassword_run, hg]
    cases hr : h.respond
        (.resetPasswordForEmail ⟨email, w.location.origin ++ "/auth/reset-password"⟩) <;>
      simp [hr, Except.map]
  · rw [updatePassword_client fresh password st, hg]
  · simp only [updatePassword_run, hg]
    cases hr : h.respond (.updateUser ⟨password⟩) <;> simp [hr, Except.map]

/-- C7, witness: with the handle `sdk0` installed, `signOut` keeps the handle
and computes its result from it. -/
theorem c7_single_handle_stateless_witness :
    (((signOut sdk0).run st1).2.client = some sdk0)
    ∧ (((signOut sdk0).run st1).1 = Except.ok ⟨some "session missing"⟩) := by
  have h := (c7_single_handle_stateless sdk0 sdk0 st1 "user@example.com" "pw" w1
      Provider.google).2.2 rfl
  refine ⟨h.2.2.1.1, ?_⟩
  rw [h.2.2.1.2]
  rfl

/-- C8: whenever Docker is installed and `docker ps -a` lists a `pocketbase`
container at the start of the script (running or stopped), the script executes
`docker stop` and then `docker rm` on it before `docker run`; when no such
container is listed, it executes no `docker stop` at all. -/
theorem c8_existing_container_replaced :
    (∀ c d : Bool,
      (setupScript ⟨true, true, c, d⟩).events.take 5
        = [ScriptEvent.psAll, ScriptEvent.dockerStop, ScriptEvent.dockerRm,
           ScriptEvent.mkdirData, ScriptEvent.dockerRun])
    ∧ (∀ c d : Bool, ScriptEvent.dockerStop ∉ (setupScript ⟨true, false, c, d⟩).events) := by
  decide

/-- C9: `signOut` returns an object containing only an `error` field — its
result is a function of the error component of the SDK's `signOut` response
alone, so any data value in that response is discarded — while each of the
other five wrappers returns both the `data` and the `error` of its SDK
response. -/
theorem c9_signout_error_only {Data Err Exn : Type} (fresh : Sdk Data Err Exn)
    (st : AuthState Data Err Exn) (email password : String) (w : Window)
    (provider : Provider) :
    (((signOut fresh).run st).1
      = ((st.client.getD fresh).respond .signOut).map (fun r => ⟨r.error⟩))
    ∧ (∀ sdkA sdkB : Sdk Data Err Exn,
        (sdkA.respond .signOut).map DataErr.error
          = (sdkB.respond .signOut).map DataErr.error →
        ((signOut sdkA).run { client := some sdkA, trace := st.trace }).1
          = ((signOut sdkB).run { client := some sdkB, trace := st.trace }).1)
    ∧ (((signInWithEmail fresh email password).run st).1
      = ((st.client.getD fresh).respond (.signInWithPassword ⟨email, password⟩)).map
          (fun r => ⟨r.data, r.error⟩))
    ∧ (((signUpWithEmail fresh email password).run st).1
      = ((st.client.getD fresh).respond (.signUp ⟨email, password⟩)).map
          (fun r => ⟨r.data, r.error⟩))
    ∧ (((signInWithOAuth fresh w provider).run st).1
      = ((st.client.getD fresh).respond
          (.signInWithOAuth ⟨provider, w.location.origin ++ "/auth/callback"⟩)).map
          (fun r => ⟨r.data, r.error⟩))
    ∧ (((resetPassword fresh w email).run st).1
      = ((st.client.getD fresh).respond
          (.resetPasswordForEmail ⟨email, w.location.origin ++ "/auth/reset-password"⟩)).map
          (fun r => ⟨r.data, r.error⟩))
    ∧ (((updatePassword fresh password).run st).1
      = ((st.client.getD fresh).respond (.updateUser ⟨password⟩)).map
          (fun r => ⟨r.data, r.error⟩)) := by
  refine ⟨?_, ?_, ?_, ?_, ?_, ?_, ?_⟩
  · simp only [signOut_run]
    cases hr : (st.client.getD fresh).respond .signOut <;> simp [hr, Except.map]
  · intro sdkA sdkB hAB
    rw [signOut_run, signOut_run]
    simp only [Option.getD_some]
    cases hA : sdkA.respond .signOut <;> cases hB : sdkB.respond .signOut <;>
      rw [hA, hB] at hAB <;> simp_all [Except.map]
  · simp only [signInWithEmail_run]
    cases hr : (st.client.getD fresh).respond (.signInWithPassword ⟨email, password⟩) <;>
      simp [hr, Except.map]
  · simp only [signUpWithEmail_run]
    cases hr : (st.client.getD fresh).respond (.signUp ⟨email, password⟩) <;>
      simp [hr, Except.map]
  · simp only [signInWithOAuth_run]
    cases hr : (st.client.getD fresh).respond
        (.signInWithOAuth ⟨provider, w.location.origin ++ "/auth/callback"⟩) <;>
      simp [hr, Except.map]
  · simp only [resetPassword_run]
    cases hr : (st.client.getD fresh).respond
        (.resetPasswordForEmail ⟨email, w.location.origin ++ "/auth/reset-password"⟩) <;>
      simp [hr, Except.map]
  · simp only [updatePassword_run]
    cases hr : (st.client.getD fresh).respond (.updateUser ⟨password⟩) <;>
      simp [hr, Except.map]

/-- C9, witness: two SDK behaviours differing only in the `data` value of the
`signOut` response give identical `signOut` results. -/
theorem c9_signout_error_only_witness :
    ((signOut sdk0).run { client := some sdk0, trace := [] }).1
      = ((signOut sdk0b).run { client := some sdk0b, trace := [] }).1 :=
  (c9_signout_error_only sdk0 st0 "user@example.com" "pw" w1 Provider.google).2.1
    sdk0 sdk0b rfl

/-- C10: the provider argument of `signInWithOAuth` admits exactly the three
values `google`, `github`, `discord`; the SDK calls of `signInWithOAuth` and
`resetPassword` carry, besides the caller's argument, a `redirectTo` URL
built from `window.location.origin`, so the SDK receives a strict superset of
the caller's arguments and the arguments depend on the ambient browser
window: identical caller arguments yield different SDK calls under different
origins. -/
theorem c10_redirect_superset {Data Err Exn : Type} (fresh : Sdk Data Err Exn)
    (st : AuthState Data Err Exn) (w : Window) (provider : Provider) (email : String) :
    (∀ p : Provider, p = Provider.google ∨ p = Provider.github ∨ p = Provider.discord)
    ∧ (((signInWithOAuth fresh w provider).run st).2.trace
        = st.trace ++ [.signInWithOAuth ⟨provider, w.location.origin ++ "/auth/callback"⟩])
    ∧ (((resetPassword fresh w email).run st).2.trace
        = st.trace ++ [.resetPasswordForEmail ⟨email, w.location.origin ++ "/auth/reset-password"⟩])
    ∧ (((signInWithOAuth sdk0 w1 Provider.google).run st0).2.trace
        ≠ ((signInWithOAuth sdk0 w2 Provider.google).run st0).2.trace)
    ∧ (((resetPassword sdk0 w1 "user@example.com").run st0).2.trace
        ≠ ((resetPassword sdk0 w2 "user@example.com").run st0).2.trace) := by
  refine ⟨fun p => ?_, signInWithOAuth_trace fresh w provider st,
    resetPassword_trace fresh w email st, by decide, by decide⟩
  cases p
  · exact Or.inl rfl
  · exact Or.inr (Or.inl rfl)
  · exact Or.inr (Or.inr rfl)

end OneshotStarter
